import Mathlib

/-!
Verification of the Zone Resolver Service (`src/resources/server.py`).

The service resolves an FQDN (taken from the HTTP GET path) to an IPv4
address via DNS and maps that address onto a static table of six CIDR
ranges, answering with JSON zone metadata.

Embedding notes.

String/byte level: Python string operations used by the server
(`str.split`, `str.strip`) are modelled on `List Char` and wrapped into
`String` at the boundaries, which matches Python's per-character
semantics for the ASCII data involved.

IP addresses: `ipaddress.ip_address` tries an IPv4 dotted-quad parse and
then an IPv6 parse, raising `ValueError` when both fail.  All configured
networks are IPv4, and `IPv4Network.__contains__` returns `False` for an
address of a different version, so a successfully parsed IPv6 address
behaves exactly like a parse failure as far as `_get_zone_data` is
concerned: the loop matches nothing and `None` is returned.  The
embedding therefore parses IPv4 only (`parseIPv4`); `parseIPv4 s = none`
covers both the `ValueError` branch and the never-matching IPv6 case,
and `_get_zone_data` below is extensionally equal to the source function
on every input string.

DNS: `socket.gethostbyname` is external input.  A request handler run is
parameterised by an oracle `dns : String → DnsResult` giving, for the
fqdn it is called on, either the resolved address string, a
`socket.gaierror`, or any other exception (`DnsResult.otherError`) —
the three cases distinguished by the `try/except` structure of `do_GET`.
-/

/-- Python `s.split(sep)` for a one-character separator, on character
lists: `pySplit c "a/b/" = ["a", "b", ""]`, `pySplit c "" = [""]`. -/
def pySplit (c : Char) : List Char → List (List Char)
  | [] => [[]]
  | x :: xs =>
    if x = c then [] :: pySplit c xs
    else
      match pySplit c xs with
      | [] => [[x]]
      | h :: t => (x :: h) :: t

/-- Python `s.strip(c)` for a one-character argument: drop every leading
and trailing occurrence of `c`. -/
def pyStripCore (c : Char) (l : List Char) : List Char :=
  ((l.dropWhile (· = c)).reverse.dropWhile (· = c)).reverse

/-- `String` wrapper for `pyStripCore`; models `self.path.strip('/')`. -/
def pyStrip (s : String) (c : Char) : String :=
  String.mk (pyStripCore c s.data)

/-- Decimal value of a digit character. -/
def digitVal (c : Char) : Nat := c.toNat - 48

/-- One octet of a dotted-quad, following `IPv4Address._parse_octet`:
non-empty, ASCII digits only, at most three characters, no leading zero
unless the octet is exactly the single character zero, value at most
255.  Returns `none` where CPython raises `ValueError`. -/
def parseOctet (l : List Char) : Option Nat :=
  if l = [] then none
  else if ¬ l.all (fun c => c.isDigit) then none
  else if l.length > 3 then none
  else if l.head? = some '0' ∧ l ≠ ['0'] then none
  else
    let n := l.foldl (fun a c => a * 10 + digitVal c) 0
    if n > 255 then none else some n

/-- `IPv4Address._ip_int_from_string`: split on the dot, require exactly
four octets, combine big-endian into the 32-bit address value. -/
def parseIPv4Core (l : List Char) : Option Nat :=
  match pySplit '.' l with
  | [a, b, c, d] =>
    match parseOctet a, parseOctet b, parseOctet c, parseOctet d with
    | some a', some b', some c', some d' =>
      some (((a' * 256 + b') * 256 + c') * 256 + d')
    | _, _, _, _ => none
  | _ => none

/-- `ipaddress.ip_address` restricted to its IPv4 branch (see the module
docstring: an IPv6 success is observationally identical to `none` for
this program).  `none` models `ValueError`. -/
def parseIPv4 (s : String) : Option Nat := parseIPv4Core s.data

/-- An IPv4 network as produced by `ipaddress.ip_network`: the 32-bit
network address and the prefix length. -/
structure IPv4Network where
  networkAddress : Nat
  prefixLen : Nat
deriving DecidableEq

/-- Netmask of a network as a 32-bit value: `prefixLen` high bits set. -/
def netmaskOf (n : IPv4Network) : Nat := 2 ^ 32 - 2 ^ (32 - n.prefixLen)

/-- Hostmask of a network: the low `32 - prefixLen` bits set. -/
def hostmaskOf (n : IPv4Network) : Nat := 2 ^ (32 - n.prefixLen) - 1

/-- `IPv4Network.__contains__` for an IPv4 address (for a mismatched IP
version CPython returns `False`; such addresses never reach this
function in the embedding, see `parseIPv4`):
`other._ip & self.netmask._ip == self.network_address._ip`. -/
def netContains (n : IPv4Network) (ip : Nat) : Bool :=
  ip.land (netmaskOf n) == n.networkAddress

/-- Prefix length recovered from a netmask value, as in
`_prefix_from_ip_int`: the unique `k ≤ 32` whose netmask equals `m`,
if any. -/
def prefixFromMaskInt (m : Nat) : Option Nat :=
  (List.range 33).find? (fun k => m == 2 ^ 32 - 2 ^ (32 - k))

/-- The part after the slash in `ip_network`, following
`_make_netmask`: first as a decimal prefix length (ASCII digits, at most
the maximum prefix length), otherwise as a dotted netmask or hostmask. -/
def parsePrefixPart (l : List Char) : Option Nat :=
  if l ≠ [] ∧ l.all (fun c => c.isDigit) then
    let n := l.foldl (fun a c => a * 10 + digitVal c) 0
    if n ≤ 32 then some n
    else
      match parseIPv4Core l with
      | some m => (prefixFromMaskInt m).orElse (fun _ => prefixFromMaskInt (2 ^ 32 - 1 - m))
      | none => none
  else
    match parseIPv4Core l with
    | some m => (prefixFromMaskInt m).orElse (fun _ => prefixFromMaskInt (2 ^ 32 - 1 - m))
    | none => none

/-- `ipaddress.ip_network` on a string argument, IPv4 branch, with the
default `strict=True`: split on the slash (at most one allowed), parse
the address part as dotted-quad, parse the prefix part (omitted means
32), and reject a network with host bits set.  `none` models
`ValueError`. -/
def ip_network (s : String) : Option IPv4Network :=
  match pySplit '/' s.data with
  | [a] =>
    match parseIPv4Core a with
    | some addr => some ⟨addr, 32⟩
    | none => none
  | [a, p] =>
    match parseIPv4Core a, parsePrefixPart p with
    | some addr, some pl =>
      if addr.land (2 ^ (32 - pl) - 1) = 0 then some ⟨addr, pl⟩ else none
    | _, _ => none
  | _ => none

/-- One raw entry of `SUBNETS_DATA`: a Python dict which may or may not
carry each of the three expected keys (`none` models a missing key,
whose access raises `KeyError`). -/
structure RawSubnet where
  CIDRBlock : Option String
  AvailabilityZone : Option String
  AvailabilityZoneId : Option String
deriving DecidableEq

/-- The zone payload stored as the value of `CIDR_MAPPINGS`. -/
structure ZoneValue where
  AvailabilityZone : String
  AvailabilityZoneId : String
deriving DecidableEq

/-- The hardcoded subnet table of the source, verbatim. -/
def SUBNETS_DATA : List RawSubnet :=
  [⟨some ("192.168.0.0/19"), some ("eu-central-1b"), some ("euc1-az3")⟩,
   ⟨some ("192.168.32.0/19"), some ("eu-central-1a"), some ("euc1-az2")⟩,
   ⟨some ("192.168.64.0/19"), some ("eu-central-1c"), some ("euc1-az1")⟩,
   ⟨some ("192.168.96.0/19"), some ("eu-central-1b"), some ("euc1-az3")⟩,
   ⟨some ("192.168.128.0/19"), some ("eu-central-1a"), some ("euc1-az2")⟩,
   ⟨some ("192.168.160.0/19"), some ("eu-central-1c"), some ("euc1-az1")⟩]

/-- Outcome of evaluating the module-level `CIDR_MAPPINGS` dict
comprehension inside its `try` block.  `keyErrorExit` is the
`except KeyError` branch: `logging.critical(...)` followed by
`sys.exit(1)`.  `uncaughtValueError` is a `ValueError` raised by
`ipaddress.ip_network`, for which there is no handler: the interpreter
aborts with a traceback (the process still dies before serving any
traffic, but no critical message is logged). -/
inductive StartupOutcome where
  | ok : List (IPv4Network × ZoneValue) → StartupOutcome
  | keyErrorExit : StartupOutcome
  | uncaughtValueError : StartupOutcome
deriving DecidableEq

/-- Python dict insertion: an existing key keeps its position and gets
the new value, a fresh key is appended (insertion order is preserved,
which is the iteration order used by `_get_zone_data`). -/
def dictInsert (k : IPv4Network) (v : ZoneValue) :
    List (IPv4Network × ZoneValue) → List (IPv4Network × ZoneValue)
  | [] => [(k, v)]
  | (k', v') :: t =>
    if k' = k then (k', v) :: t else (k', v') :: dictInsert k v t

/-- The `CIDR_MAPPINGS` dict comprehension, entry by entry in table
order.  For each entry the key expression runs first (Python ≥ 3.8):
`subnet["CIDRBlock"]` (KeyError when missing), then
`ipaddress.ip_network(...)` (ValueError when unparseable), then the two
value-side key accesses (KeyError when missing).  The first failure
decides the outcome. -/
def buildMappings : List RawSubnet → List (IPv4Network × ZoneValue) → StartupOutcome
  | [], acc => .ok acc
  | e :: rest, acc =>
    match e.CIDRBlock with
    | none => .keyErrorExit
    | some cidr =>
      match ip_network cidr with
      | none => .uncaughtValueError
      | some net =>
        match e.AvailabilityZone, e.AvailabilityZoneId with
        | some az, some azid => buildMappings rest (dictInsert net ⟨az, azid⟩ acc)
        | _, _ => .keyErrorExit

/-- Module-level startup of the server: build `CIDR_MAPPINGS` from
`SUBNETS_DATA`. -/
def startup : StartupOutcome := buildMappings SUBNETS_DATA []

/-- The six-entry mapping table the server actually runs with (startup
succeeds on the hardcoded table; `startup_ok` below). -/
def CIDR_MAPPINGS : List (IPv4Network × ZoneValue) :=
  match startup with
  | .ok l => l
  | _ => []

theorem startup_ok :
    startup = .ok
      [(⟨3232235520, 19⟩, ⟨"eu-central-1b", "euc1-az3"⟩),
       (⟨3232243712, 19⟩, ⟨"eu-central-1a", "euc1-az2"⟩),
       (⟨3232251904, 19⟩, ⟨"eu-central-1c", "euc1-az1"⟩),
       (⟨3232260096, 19⟩, ⟨"eu-central-1b", "euc1-az3"⟩),
       (⟨3232268288, 19⟩, ⟨"eu-central-1a", "euc1-az2"⟩),
       (⟨3232276480, 19⟩, ⟨"eu-central-1c", "euc1-az1"⟩)] := by
  decide

/-- Result of the `socket.gethostbyname(fqdn)` call in `_get_ip_address`
as seen by `do_GET`'s exception handling: a resolved address string, a
`socket.gaierror`, or any other exception. -/
inductive DnsResult where
  | resolved : String → DnsResult
  | gaierror : DnsResult
  | otherError : DnsResult

/-- An HTTP response as produced by `send_json_response`: status code
plus the JSON object payload as ordered key/value pairs. -/
structure HttpResponse where
  status : Nat
  body : List (String × String)
deriving DecidableEq

/-- Python `path.startswith('/')`: true exactly when the first character
is a slash (defined on the character list so that proofs can evaluate
it). -/
def startswithSlash (s : String) : Bool :=
  match s.data with
  | [] => false
  | c :: _ => c = '/'

/-- `RequestHandler._get_zone_data`, generalised over the mapping table
(the source reads the module-level `CIDR_MAPPINGS`): parse the address
string, then scan the table in insertion order and return the first
containing network's data; a parse failure (`ValueError`, caught in the
source) yields `None`. -/
def _get_zone_data_with (table : List (IPv4Network × ZoneValue)) (s : String) :
    Option ZoneValue :=
  match parseIPv4 s with
  | some ip => (table.find? (fun p => netContains p.1 ip)).map (fun p => p.2)
  | none => none

/-- `RequestHandler._get_zone_data` on the server's actual table. -/
def _get_zone_data (s : String) : Option ZoneValue :=
  _get_zone_data_with CIDR_MAPPINGS s

/-- The body of `do_GET`'s `try` block together with the preceding
empty-fqdn check, after the fqdn has been stripped from the path:
resolve, look up the zone, and render the response; the two `except`
clauses map `socket.gaierror` to 404 and anything else to 500. -/
def lookupResponse (table : List (IPv4Network × ZoneValue))
    (dns : String → DnsResult) (fqdn : String) : HttpResponse :=
  if fqdn = "" then
    ⟨404, [("error", "Not Found. Please provide a FQDN in the path, e.g., /my.database.com")]⟩
  else
    match dns fqdn with
    | .resolved ipStr =>
      match _get_zone_data_with table ipStr with
      | some zd => ⟨200, [("zone", zd.AvailabilityZone), ("zoneId", zd.AvailabilityZoneId)]⟩
      | none => ⟨404, [("error", "Zone not found for the given FQDN's IP")]⟩
    | .gaierror => ⟨404, [("error", "FQDN not found or could not be resolved")]⟩
    | .otherError => ⟨500, [("error", "Internal Server Error")]⟩

/-- `RequestHandler.do_GET`, generalised over the mapping table: the
health-check special case, the defensive leading-slash check, the strip
of the path into an fqdn, then `lookupResponse`.  The function is total:
every exception of the pipeline is converted into a response, none
propagates out of the handler. -/
def do_GET_core (table : List (IPv4Network × ZoneValue))
    (dns : String → DnsResult) (path : String) : HttpResponse :=
  if path = "/healthz" ∨ path = "/readyz" then ⟨200, [("status", "ok")]⟩
  else if ¬ (startswithSlash path) then ⟨400, [("error", "Invalid path")]⟩
  else lookupResponse table dns (pyStrip path '/')

/-- `RequestHandler.do_GET` on the server's actual table. -/
def do_GET (dns : String → DnsResult) (path : String) : HttpResponse :=
  do_GET_core CIDR_MAPPINGS dns path

theorem do_GET_core_lookup (table : List (IPv4Network × ZoneValue))
    (dns : String → DnsResult) (path : String)
    (h1 : path ≠ "/healthz") (h2 : path ≠ "/readyz")
    (h3 : startswithSlash path = true) :
    do_GET_core table dns path = lookupResponse table dns (pyStrip path '/') := by
  unfold do_GET_core
  rw [if_neg (not_or.mpr ⟨h1, h2⟩), h3]
  simp

/-- DNS oracle resolving every name to a fixed address string. -/
def dnsTo (ip : String) : String → DnsResult := fun _ => DnsResult.resolved ip

/-- DNS oracle failing every name with `socket.gaierror`. -/
def dnsGaiFail : String → DnsResult := fun _ => DnsResult.gaierror

/-- DNS oracle raising a non-`gaierror` exception for every name. -/
def dnsOtherFail : String → DnsResult := fun _ => DnsResult.otherError

/-- C1: a GET request whose stripped path is a non-empty FQDN resolving
to an address contained in at least one configured CIDR block is
answered 200 with the zone and zoneId of the first containing subnet
record in table order (the first-match hypothesis is stated as
`List.find?` over `CIDR_MAPPINGS`, whose order is the table order). -/
theorem do_GET_zone_found (dns : String → DnsResult) (path ipStr : String)
    (ip : Nat) (net : IPv4Network) (zd : ZoneValue)
    (h1 : path ≠ "/healthz") (h2 : path ≠ "/readyz")
    (h3 : startswithSlash path = true)
    (hne : pyStrip path '/' ≠ "")
    (hdns : dns (pyStrip path '/') = DnsResult.resolved ipStr)
    (hip : parseIPv4 ipStr = some ip)
    (hfind : CIDR_MAPPINGS.find? (fun p => netContains p.1 ip) = some (net, zd)) :
    do_GET dns path =
      ⟨200, [("zone", zd.AvailabilityZone), ("zoneId", zd.AvailabilityZoneId)]⟩ := by
  unfold do_GET
  rw [do_GET_core_lookup _ _ _ h1 h2 h3]
  unfold lookupResponse _get_zone_data_with
  rw [if_neg hne, hdns]
  simp only [hip, hfind, Option.map_some']

theorem do_GET_zone_found_witness :
    do_GET (dnsTo ("192.168.0.77")) ("/db.example.com") =
      ⟨200, [("zone", "eu-central-1b"), ("zoneId", "euc1-az3")]⟩ :=
  do_GET_zone_found (dnsTo ("192.168.0.77")) ("/db.example.com")
    ("192.168.0.77") 3232235597 ⟨3232235520, 19⟩ ⟨"eu-central-1b", "euc1-az3"⟩
    (by decide) (by decide) (by decide) (by decide) rfl (by decide) (by decide)

/-- C2: a request whose FQDN resolves to an address contained in none of
the configured CIDR blocks is answered 404 with the zone-not-found
error body. -/
theorem do_GET_zone_not_found (dns : String → DnsResult) (path ipStr : String)
    (ip : Nat)
    (h1 : path ≠ "/healthz") (h2 : path ≠ "/readyz")
    (h3 : startswithSlash path = true)
    (hne : pyStrip path '/' ≠ "")
    (hdns : dns (pyStrip path '/') = DnsResult.resolved ipStr)
    (hip : parseIPv4 ipStr = some ip)
    (hmiss : ∀ p ∈ CIDR_MAPPINGS, netContains p.1 ip = false) :
    do_GET dns path = ⟨404, [("error", "Zone not found for the given FQDN's IP")]⟩ := by
  have hnone : CIDR_MAPPINGS.find? (fun p => netContains p.1 ip) = none :=
    List.find?_eq_none.mpr (fun p hp => by simp [hmiss p hp])
  unfold do_GET
  rw [do_GET_core_lookup _ _ _ h1 h2 h3]
  unfold lookupResponse _get_zone_data_with
  rw [if_neg hne, hdns]
  simp only [hip, hnone, Option.map_none']

theorem do_GET_zone_not_found_witness :
    do_GET (dnsTo ("10.0.0.1")) ("/other.example.com") =
      ⟨404, [("error", "Zone not found for the given FQDN's IP")]⟩ :=
  do_GET_zone_not_found (dnsTo ("10.0.0.1")) ("/other.example.com")
    ("10.0.0.1") 167772161
    (by decide) (by decide) (by decide) (by decide) rfl (by decide) (by decide)

/-- C3: a request whose FQDN fails DNS resolution with the resolver's
resolution error (`socket.gaierror`) is answered 404 with the
FQDN-not-resolved error body. -/
theorem do_GET_dns_failure (dns : String → DnsResult) (path : String)
    (h1 : path ≠ "/healthz") (h2 : path ≠ "/readyz")
    (h3 : startswithSlash path = true)
    (hne : pyStrip path '/' ≠ "")
    (hdns : dns (pyStrip path '/') = DnsResult.gaierror) :
    do_GET dns path = ⟨404, [("error", "FQDN not found or could not be resolved")]⟩ := by
  unfold do_GET
  rw [do_GET_core_lookup _ _ _ h1 h2 h3]
  unfold lookupResponse
  rw [if_neg hne, hdns]

theorem do_GET_dns_failure_witness :
    do_GET dnsGaiFail ("/no.such.host") =
      ⟨404, [("error", "FQDN not found or could not be resolved")]⟩ :=
  do_GET_dns_failure dnsGaiFail ("/no.such.host")
    (by decide) (by decide) (by decide) (by decide) rfl

/-- C5: a request in which the pipeline raises any exception other than
a DNS-resolution failure is answered 500 with the internal-server-error
body; `do_GET` is a total function, so no exception propagates out of
the handler. -/
theorem do_GET_unexpected_error (dns : String → DnsResult) (path : String)
    (h1 : path ≠ "/healthz") (h2 : path ≠ "/readyz")
    (h3 : startswithSlash path = true)
    (hne : pyStrip path '/' ≠ "")
    (hdns : dns (pyStrip path '/') = DnsResult.otherError) :
    do_GET dns path = ⟨500, [("error", "Internal Server Error")]⟩ := by
  unfold do_GET
  rw [do_GET_core_lookup _ _ _ h1 h2 h3]
  unfold lookupResponse
  rw [if_neg hne, hdns]

theorem do_GET_unexpected_error_witness :
    do_GET dnsOtherFail ("/weird.example.com") =
      ⟨500, [("error", "Internal Server Error")]⟩ :=
  do_GET_unexpected_error dnsOtherFail ("/weird.example.com")
    (by decide) (by decide) (by decide) (by decide) rfl

/-- Dotted-quad rendering of a 32-bit address value, big-endian. -/
def ipv4ToString (n : Nat) : String :=
  toString (n / 16777216 % 256) ++ "." ++ toString (n / 65536 % 256) ++ "." ++
    toString (n / 256 % 256) ++ "." ++ toString (n % 256)

/-- C6: for each of the six configured subnets, the first host address
of that subnet's network (network address plus one, e.g. 192.168.0.1
for 192.168.0.0/19) is mapped by `_get_zone_data` to exactly that
subnet's zone and zoneId. -/
theorem first_host_maps_to_own_zone :
    ∀ p ∈ CIDR_MAPPINGS,
      _get_zone_data (ipv4ToString (p.1.networkAddress + 1)) = some p.2 := by
  decide

theorem first_host_maps_to_own_zone_witness :
    _get_zone_data
        (ipv4ToString (((⟨3232235520, 19⟩ : IPv4Network), (⟨"eu-central-1b", "euc1-az3"⟩ : ZoneValue)).1.networkAddress + 1)) =
      some (((⟨3232235520, 19⟩ : IPv4Network), (⟨"eu-central-1b", "euc1-az3"⟩ : ZoneValue)).2) :=
  first_host_maps_to_own_zone
    ((⟨3232235520, 19⟩ : IPv4Network), (⟨"eu-central-1b", "euc1-az3"⟩ : ZoneValue))
    (by decide)

/-- C7: a request whose FQDN resolves to the address 192.168.64.5 is
answered 200 with zone eu-central-1c and zoneId euc1-az1. -/
theorem do_GET_resolves_to_euc1_az1 (dns : String → DnsResult) (path : String)
    (h1 : path ≠ "/healthz") (h2 : path ≠ "/readyz")
    (h3 : startswithSlash path = true)
    (hne : pyStrip path '/' ≠ "")
    (hdns : dns (pyStrip path '/') = DnsResult.resolved ("192.168.64.5")) :
    do_GET dns path = ⟨200, [("zone", "eu-central-1c"), ("zoneId", "euc1-az1")]⟩ := by
  unfold do_GET
  rw [do_GET_core_lookup _ _ _ h1 h2 h3]
  unfold lookupResponse
  rw [if_neg hne, hdns]
  decide

theorem do_GET_resolves_to_euc1_az1_witness :
    do_GET (dnsTo ("192.168.64.5")) ("/svc.example.com") =
      ⟨200, [("zone", "eu-central-1c"), ("zoneId", "euc1-az1")]⟩ :=
  do_GET_resolves_to_euc1_az1 (dnsTo ("192.168.64.5")) ("/svc.example.com")
    (by decide) (by decide) (by decide) (by decide) rfl

/-- C8: the exact paths /healthz and /readyz are answered 200 with the
status-ok body for every mapping table (including a malformed or empty
one) and every DNS oracle; the oracle is never applied and the table is
never read, so no resolution or zone lookup is performed. -/
theorem healthcheck_paths_always_ok (table : List (IPv4Network × ZoneValue))
    (dns : String → DnsResult) :
    do_GET_core table dns ("/healthz") = ⟨200, [("status", "ok")]⟩ ∧
      do_GET_core table dns ("/readyz") = ⟨200, [("status", "ok")]⟩ :=
  ⟨rfl, rfl⟩

/-- C9: an address string that the IP parser rejects (`ValueError` in
the source, caught inside `_get_zone_data`) makes the zone lookup
return `none` rather than raising, so the request is answered 404 with
the zone-not-found body instead of 500. -/
theorem invalid_ip_string_yields_zone_not_found (dns : String → DnsResult)
    (path ipStr : String)
    (h1 : path ≠ "/healthz") (h2 : path ≠ "/readyz")
    (h3 : startswithSlash path = true)
    (hne : pyStrip path '/' ≠ "")
    (hdns : dns (pyStrip path '/') = DnsResult.resolved ipStr)
    (hbad : parseIPv4 ipStr = none) :
    _get_zone_data ipStr = none ∧
      do_GET dns path = ⟨404, [("error", "Zone not found for the given FQDN's IP")]⟩ := by
  constructor
  · unfold _get_zone_data _get_zone_data_with
    rw [hbad]
  · unfold do_GET
    rw [do_GET_core_lookup _ _ _ h1 h2 h3]
    unfold lookupResponse _get_zone_data_with
    rw [if_neg hne, hdns]
    simp only [hbad]

theorem invalid_ip_string_yields_zone_not_found_witness :
    _get_zone_data ("not-an-ip") = none ∧
      do_GET (dnsTo ("not-an-ip")) ("/cname.example.com") =
        ⟨404, [("error", "Zone not found for the given FQDN's IP")]⟩ :=
  invalid_ip_string_yields_zone_not_found (dnsTo ("not-an-ip"))
    ("/cname.example.com") ("not-an-ip")
    (by decide) (by decide) (by decide) (by decide) rfl (by decide)

/-- C10: two non-health-check paths that start with a slash and agree
after stripping leading and trailing slashes produce the same fqdn and
hence the same response, for any DNS oracle. -/
theorem equal_stripped_paths_equal_responses (dns : String → DnsResult)
    (p1 p2 : String)
    (h1 : p1 ≠ "/healthz") (h2 : p1 ≠ "/readyz")
    (h3 : startswithSlash p1 = true)
    (h4 : p2 ≠ "/healthz") (h5 : p2 ≠ "/readyz")
    (h6 : startswithSlash p2 = true)
    (hstrip : pyStrip p1 '/' = pyStrip p2 '/') :
    do_GET dns p1 = do_GET dns p2 := by
  unfold do_GET
  rw [do_GET_core_lookup _ _ _ h1 h2 h3, do_GET_core_lookup _ _ _ h4 h5 h6, hstrip]

theorem equal_stripped_paths_equal_responses_witness :
    do_GET dnsGaiFail ("/a.com") = do_GET dnsGaiFail ("//a.com///") :=
  equal_stripped_paths_equal_responses dnsGaiFail ("/a.com") ("//a.com///")
    (by decide) (by decide) (by decide) (by decide) (by decide) (by decide) (by decide)

/-- An entry of the static table that cannot be turned into a
network-to-zone mapping: a required key is missing (`KeyError` on
access) or the CIDR string is rejected by `ipaddress.ip_network`
(`ValueError`). -/
def malformedEntry (e : RawSubnet) : Bool :=
  match e.CIDRBlock with
  | none => true
  | some c => (ip_network c).isNone || e.AvailabilityZone.isNone || e.AvailabilityZoneId.isNone

/-- A table entry whose three keys are present but whose CIDR string is
unparseable. -/
def badCidrEntry : RawSubnet :=
  ⟨some ("not-a-valid-cidr"), some ("eu-central-1a"), some ("euc1-az2")⟩

/-- C4, counterexample: `badCidrEntry` is an entry that cannot be parsed
into a mapping, yet startup on a table containing it does not reach the
`except KeyError` branch (the only code that logs a critical message and
calls `sys.exit`); the `ValueError` from `ipaddress.ip_network` is
uncaught and the interpreter aborts without the critical log. -/
theorem malformed_cidr_skips_critical_exit :
    malformedEntry badCidrEntry = true ∧
      buildMappings [badCidrEntry] [] = StartupOutcome.uncaughtValueError ∧
      buildMappings [badCidrEntry] [] ≠ StartupOutcome.keyErrorExit := by
  decide

/-- C4, amended: a malformed entry anywhere in the static table is still
fatal before any traffic is served, but in one of two ways: a missing
key reaches the handler that logs a critical message and exits
(`keyErrorExit`), while an unparseable CIDR string aborts the process
via an uncaught `ValueError` with no critical log
(`uncaughtValueError`); in neither case does startup produce a serving
table. -/
theorem malformed_entry_aborts_startup (table : List RawSubnet)
    (acc : List (IPv4Network × ZoneValue))
    (h : ∃ e ∈ table, malformedEntry e = true) :
    buildMappings table acc = StartupOutcome.keyErrorExit ∨
      buildMappings table acc = StartupOutcome.uncaughtValueError := by
  induction table generalizing acc with
  | nil =>
    obtain ⟨e, he, _⟩ := h
    cases he
  | cons e0 rest ih =>
    obtain ⟨e, he, hm⟩ := h
    cases hc : e0.CIDRBlock with
    | none => left; simp [buildMappings, hc]
    | some c =>
      cases hn : ip_network c with
      | none => right; simp [buildMappings, hc, hn]
      | some net =>
        cases hz : e0.AvailabilityZone with
        | none => left; simp [buildMappings, hc, hn, hz]
        | some az =>
          cases hzi : e0.AvailabilityZoneId with
          | none => left; simp [buildMappings, hc, hn, hz, hzi]
          | some azid =>
            have he' : e ∈ rest := by
              rcases List.mem_cons.mp he with h0 | h0
              · subst h0
                exfalso
                simp [malformedEntry, hc, hn, hz, hzi] at hm
              · exact h0
            have hrest := ih (dictInsert net ⟨az, azid⟩ acc) ⟨e, he', hm⟩
            simpa [buildMappings, hc, hn, hz, hzi] using hrest

theorem malformed_entry_aborts_startup_witness :
    buildMappings [badCidrEntry] [] = StartupOutcome.keyErrorExit ∨
      buildMappings [badCidrEntry] [] = StartupOutcome.uncaughtValueError :=
  malformed_entry_aborts_startup [badCidrEntry] []
    ⟨badCidrEntry, List.mem_cons_self badCidrEntry [], by decide⟩
